import Mathlib

/-!
# EbSynth project editor: binary codec and interval generator

A shallow embedding of the project-file codec and the interval generator of
the EbSynth project editor, together with theorems settling the specified
properties.

Modelling conventions:
* A byte buffer is a `List Nat` of byte values; sequential reads consume the
  front of the list and return the rest, mirroring reads from a binary file
  handle.
* Python `str` values are Lean `String`s (sequences of code points).
  `bytes.decode('ascii')` / `str.encode('ascii')` translate code points
  below 128 to byte values one-for-one; `asciiDecode` rejects byte values
  outside that range the way the Python decoder raises `UnicodeDecodeError`.
* `float` fields only ever move through the codec as their 4-byte IEEE-754
  binary32 images, so they are modelled by their bit patterns
  (a `Nat` below 2^32); e.g. the default `30.0` is the pattern `1106247680`
  (`0x41F00000`).  `struct.pack('<f', x)` / `struct.unpack('<f', b)` are then
  the little-endian byte serialisation of that pattern.
* `struct.unpack` raising `struct.error` on a short read is the
  `unexpectedEndOfData` error; a failed ASCII decode is `invalidEncoding`.
-/

/-- Supposedly, the current version of the program. -/
def MAGIC_PROGRAM_VERSION : String := "EBS05"

/-- Supposedly, a string that indicates that the project has extra metadata. -/
def MAGIC_EXTRA_METADATA : String := "V02"

/-- Uninterpreted value that appears at the end of projects with extra metadata. -/
def MAGIC_FINAL_INTEGER : Int := 704

/-- Represents an EbSynth frames interval (the `EbSynthInterval` dataclass).
Field order and default values follow the dataclass. -/
structure EbSynthInterval where
  key_frame : Int := 1
  first_frame_is_used : Bool := false
  final_frame_is_used : Bool := false
  first_frame : Int := 1
  final_frame : Int := 1
  output_path : String := "out\\[#####].png"
  deriving DecidableEq, Repr

/-- Represents an EbSynth project (the `EbSynthProject` dataclass).
Field order and default values follow the dataclass; the four `float`
fields hold IEEE-754 binary32 bit patterns (`1065353216 = 1.0`,
`1082130432 = 4.0`, `1092616192 = 10.0`, `1163575296 = 3500.0`,
`1106247680 = 30.0`). -/
structure EbSynthProject where
  program_version : String := MAGIC_PROGRAM_VERSION
  frames_per_second : Nat := 1106247680
  key_images_path : String := "keys\\[#####].png"
  video_images_path : String := "video\\[#####].png"
  mask_images_path : String := "mask\\[#####].png"
  mask_images_enabled : Bool := false
  key_images_weight : Nat := 1065353216
  video_images_weight : Nat := 1082130432
  mask_images_weight : Nat := 1065353216
  mapping : Nat := 1092616192
  de_flicker : Nat := 1065353216
  diversity : Nat := 1163575296
  intervals : List EbSynthInterval := []
  synthesis_detail : Int := 2
  use_gpu : Bool := true
  deriving DecidableEq, Repr

/-- The default project, `EbSynthProject()` in the source. -/
def defaultProject : EbSynthProject := {}

/-! ## Errors of the codec -/

/-- Failures the decoder can raise: `struct.error` on a short read
(`unexpectedEndOfData`) and `UnicodeDecodeError` on a non-ASCII byte
(`invalidEncoding`). -/
inductive ReadError where
  | unexpectedEndOfData
  | invalidEncoding
  deriving DecidableEq, Repr

deriving instance DecidableEq for Except

/-! ## Primitive writers (the `write_*` helpers of the source) -/

/-- `write_bool`: `struct.pack('<?', value)` is a single byte `0` or `1`. -/
def write_bool (value : Bool) : List Nat :=
  [if value then 1 else 0]

/-- `write_int`: `struct.pack('<i', value)`, the four little-endian bytes of
the value's two's-complement image.  (The Python call raises for values
outside the signed 32-bit range; theorems about `write_int` therefore carry
an `int32Range` hypothesis.) -/
def write_int (value : Int) : List Nat :=
  [(value % 4294967296).toNat % 256,
   (value % 4294967296).toNat / 256 % 256,
   (value % 4294967296).toNat / 65536 % 256,
   (value % 4294967296).toNat / 16777216 % 256]

/-- `write_float`: `struct.pack('<f', value)`, the four little-endian bytes of
the float's binary32 bit pattern (floats are modelled by that pattern). -/
def write_float (bits : Nat) : List Nat :=
  [bits % 256, bits / 256 % 256, bits / 65536 % 256, bits / 16777216 % 256]

/-- `string.encode('ascii')`: one byte per code point.  (The Python call
raises for code points at or above 128; theorems carry an `asciiOk`
hypothesis.) -/
def asciiEncode (s : String) : List Nat :=
  s.data.map Char.toNat

/-- `write_constant_string`: the ASCII bytes followed by a `0x00` terminator. -/
def write_constant_string (string : String) : List Nat :=
  asciiEncode string ++ [0]

/-- `write_variable_string`: a 4-byte little-endian signed length prefix
followed by the ASCII bytes, no terminator. -/
def write_variable_string (string : String) : List Nat :=
  write_int (string.length : Int) ++ asciiEncode string

/-- `write_interval`: the six fields of an interval in source order. -/
def write_interval (interval : EbSynthInterval) : List Nat :=
  write_int interval.key_frame ++
  write_bool interval.first_frame_is_used ++
  write_bool interval.final_frame_is_used ++
  write_int interval.first_frame ++
  write_int interval.final_frame ++
  write_variable_string interval.output_path

/-! ## Primitive readers (the `read_*` helpers of the source) -/

/-- `read_bool`: `struct.unpack('<?', buffer.read(1))`; any nonzero byte is
`true`, a short read raises. -/
def read_bool (buffer : List Nat) : Except ReadError (Bool × List Nat) :=
  match buffer with
  | b :: rest => .ok (b != 0, rest)
  | [] => .error .unexpectedEndOfData

/-- Value of four little-endian bytes as a signed 32-bit integer
(`struct.unpack('<i', ...)`). -/
def int32OfBytes (b0 b1 b2 b3 : Nat) : Int :=
  if b0 + 256 * b1 + 65536 * b2 + 16777216 * b3 < 2147483648
  then ((b0 + 256 * b1 + 65536 * b2 + 16777216 * b3 : Nat) : Int)
  else ((b0 + 256 * b1 + 65536 * b2 + 16777216 * b3 : Nat) : Int) - 4294967296

/-- `read_int`: `struct.unpack('<i', buffer.read(4))`; a short read raises. -/
def read_int (buffer : List Nat) : Except ReadError (Int × List Nat) :=
  match buffer with
  | b0 :: b1 :: b2 :: b3 :: rest => .ok (int32OfBytes b0 b1 b2 b3, rest)
  | _ => .error .unexpectedEndOfData

/-- `read_float`: `struct.unpack('<f', buffer.read(4))`; yields the binary32
bit pattern of the four little-endian bytes, a short read raises. -/
def read_float (buffer : List Nat) : Except ReadError (Nat × List Nat) :=
  match buffer with
  | b0 :: b1 :: b2 :: b3 :: rest =>
    .ok (b0 + 256 * b1 + 65536 * b2 + 16777216 * b3, rest)
  | _ => .error .unexpectedEndOfData

/-- `bytes.decode('ascii')`: succeeds exactly when every byte is below 128. -/
def asciiDecode (bytes : List Nat) : Except ReadError String :=
  if bytes.all (fun b => b < 128) then .ok ⟨bytes.map Char.ofNat⟩
  else .error .invalidEncoding

/-- `read_constant_string`: `buffer.read(len(reference) + 1)[:-1].decode('ascii')`.
`file.read` returns at most the requested number of bytes and does not raise
at end of data, so a short buffer yields a short (possibly empty) string. -/
def read_constant_string (reference : String) (buffer : List Nat) :
    Except ReadError (String × List Nat) :=
  match asciiDecode (buffer.take (reference.length + 1)).dropLast with
  | .error e => .error e
  | .ok s => .ok (s, buffer.drop (reference.length + 1))

/-- `read_variable_string`: a 4-byte signed length then `buffer.read(length)`.
A negative size makes Python's `file.read` read everything that remains;
a short read of the content does not raise (fewer bytes come back). -/
def read_variable_string (buffer : List Nat) : Except ReadError (String × List Nat) :=
  match read_int buffer with
  | .error e => .error e
  | .ok (length, buffer) =>
    match asciiDecode (buffer.take (if length < 0 then buffer.length else length.toNat)) with
    | .error e => .error e
    | .ok s => .ok (s, buffer.drop (if length < 0 then buffer.length else length.toNat))

/-- `read_interval`: the six fields of an interval in source order. -/
def read_interval (buffer : List Nat) : Except ReadError (EbSynthInterval × List Nat) :=
  match read_int buffer with
  | .error e => .error e
  | .ok (key_frame, buffer) =>
    match read_bool buffer with
    | .error e => .error e
    | .ok (first_frame_is_used, buffer) =>
      match read_bool buffer with
      | .error e => .error e
      | .ok (final_frame_is_used, buffer) =>
        match read_int buffer with
        | .error e => .error e
        | .ok (first_frame, buffer) =>
          match read_int buffer with
          | .error e => .error e
          | .ok (final_frame, buffer) =>
            match read_variable_string buffer with
            | .error e => .error e
            | .ok (output_path, buffer) =>
              .ok ({ key_frame := key_frame,
                     first_frame_is_used := first_frame_is_used,
                     final_frame_is_used := final_frame_is_used,
                     first_frame := first_frame,
                     final_frame := final_frame,
                     output_path := output_path }, buffer)

/-- The list comprehension `[read_interval(buffer) for _ in range(count)]`:
`count` sequential interval reads.  `read_project` passes `count.toNat`,
because Python's `range` over a non-positive count is empty. -/
def read_intervals_list (count : Nat) (buffer : List Nat) :
    Except ReadError (List EbSynthInterval × List Nat) :=
  match count with
  | 0 => .ok ([], buffer)
  | n + 1 =>
    match read_interval buffer with
    | .error e => .error e
    | .ok (interval, buffer) =>
      match read_intervals_list n buffer with
      | .error e => .error e
      | .ok (intervals, buffer) => .ok (interval :: intervals, buffer)

/-- Trailing part of `read_project` (from line `if read_constant_string(buffer,
MAGIC_EXTRA_METADATA):` on): read the extra-metadata token and, when it is a
non-empty — hence truthy — string, overwrite the three trailing settings of
the already-constructed project. -/
def read_project_tail (project : EbSynthProject) (buffer : List Nat) :
    Except ReadError (EbSynthProject × List Nat) :=
  match read_constant_string MAGIC_EXTRA_METADATA buffer with
  | .error e => .error e
  | .ok (tag, buffer) =>
    if tag = "" then .ok (project, buffer)
    else
      match read_int buffer with
      | .error e => .error e
      | .ok (synthesis_detail, buffer) =>
        match read_bool buffer with
        | .error e => .error e
        | .ok (use_gpu, buffer) =>
          match read_float buffer with
          | .error e => .error e
          | .ok (frames_per_second, buffer) =>
            .ok ({ project with
                    synthesis_detail := synthesis_detail,
                    use_gpu := use_gpu,
                    frames_per_second := frames_per_second }, buffer)

/-- `read_project`: the mandatory fields in source order, the interval list,
then the optional trailing metadata.  The constructed project keeps the
dataclass defaults for `synthesis_detail`, `use_gpu` and `frames_per_second`
unless the trailing block is present.  The final `magic_number` is never
read. -/
def read_project (buffer : List Nat) : Except ReadError (EbSynthProject × List Nat) :=
  match read_constant_string MAGIC_PROGRAM_VERSION buffer with
  | .error e => .error e
  | .ok (program_version, buffer) =>
    match read_variable_string buffer with
    | .error e => .error e
    | .ok (video_images_path, buffer) =>
      match read_variable_string buffer with
      | .error e => .error e
      | .ok (mask_images_path, buffer) =>
        match read_variable_string buffer with
        | .error e => .error e
        | .ok (key_images_path, buffer) =>
          match read_bool buffer with
          | .error e => .error e
          | .ok (mask_images_enabled, buffer) =>
            match read_float buffer with
            | .error e => .error e
            | .ok (key_images_weight, buffer) =>
              match read_float buffer with
              | .error e => .error e
              | .ok (video_images_weight, buffer) =>
                match read_float buffer with
                | .error e => .error e
                | .ok (mask_images_weight, buffer) =>
                  match read_float buffer with
                  | .error e => .error e
                  | .ok (mapping, buffer) =>
                    match read_float buffer with
                    | .error e => .error e
                    | .ok (de_flicker, buffer) =>
                      match read_float buffer with
                      | .error e => .error e
                      | .ok (diversity, buffer) =>
                        match read_int buffer with
                        | .error e => .error e
                        | .ok (interval_count, buffer) =>
                          match read_intervals_list interval_count.toNat buffer with
                          | .error e => .error e
                          | .ok (intervals, buffer) =>
                            read_project_tail
                              { program_version := program_version,
                                video_images_path := video_images_path,
                                mask_images_path := mask_images_path,
                                key_images_path := key_images_path,
                                mask_images_enabled := mask_images_enabled,
                                key_images_weight := key_images_weight,
                                video_images_weight := video_images_weight,
                                mask_images_weight := mask_images_weight,
                                mapping := mapping,
                                de_flicker := de_flicker,
                                diversity := diversity,
                                intervals := intervals }
                              buffer

/-! ## Whole-project writer (`write_project` of the source) -/

/-- Mandatory part of `write_project`: every write up to and including the
interval records. -/
def write_project_core (project : EbSynthProject) : List Nat :=
  write_constant_string project.program_version ++
  write_variable_string project.video_images_path ++
  write_variable_string project.mask_images_path ++
  write_variable_string project.key_images_path ++
  write_bool project.mask_images_enabled ++
  write_float project.key_images_weight ++
  write_float project.video_images_weight ++
  write_float project.mask_images_weight ++
  write_float project.mapping ++
  write_float project.de_flicker ++
  write_float project.diversity ++
  write_int (project.intervals.length : Int) ++
  (project.intervals.map write_interval).flatten

/-- Trailing-metadata part of `write_project`: the extra-metadata token and
the three trailing settings. -/
def write_project_meta (project : EbSynthProject) : List Nat :=
  write_constant_string MAGIC_EXTRA_METADATA ++
  write_int project.synthesis_detail ++
  write_bool project.use_gpu ++
  write_float project.frames_per_second

/-- `write_project`: every field in source order, ending with the
`MAGIC_FINAL_INTEGER` sentinel. -/
def write_project (project : EbSynthProject) : List Nat :=
  write_constant_string project.program_version ++
  write_variable_string project.video_images_path ++
  write_variable_string project.mask_images_path ++
  write_variable_string project.key_images_path ++
  write_bool project.mask_images_enabled ++
  write_float project.key_images_weight ++
  write_float project.video_images_weight ++
  write_float project.mask_images_weight ++
  write_float project.mapping ++
  write_float project.de_flicker ++
  write_float project.diversity ++
  write_int (project.intervals.length : Int) ++
  (project.intervals.map write_interval).flatten ++
  write_constant_string MAGIC_EXTRA_METADATA ++
  write_int project.synthesis_detail ++
  write_bool project.use_gpu ++
  write_float project.frames_per_second ++
  write_int MAGIC_FINAL_INTEGER

/-! ## Interval generator (`create_intervals` of the source) -/

/-- Number of elements of Python `range(a, b, s)`: for a positive step,
the count of values `a, a + s, a + 2 * s, ...` strictly below `b`;
symmetrically for a negative step; `range` with step `0` raises, modelled
as the empty range. -/
def pythonRangeLength (a b s : Int) : Nat :=
  if 0 < s then (b - a + s - 1).toNat / s.toNat
  else if s < 0 then (a - b + (-s) - 1).toNat / (-s).toNat
  else 0

/-- Python `range(a, b, s)` as a list. -/
def pythonRange (a b s : Int) : List Int :=
  (List.range (pythonRangeLength a b s)).map (fun k : Nat => a + s * (k : Int))

/-- `create_intervals`: frame intervals inside the `first` and `final` frame
numbers.  The keyframes are `range(first + left, final, step)`; each interval
spans `left` frames to the left of its keyframe and `right` to the right,
clamped at `final`.  The output template (`output.format(i=index)` in the
source, with `index` from `enumerate`, i.e. starting at `0`) is modelled
as a function of the index. -/
def create_intervals (first final step left right : Int) (output : Nat → String) :
    List EbSynthInterval :=
  let create_one_interval : Nat × Int → EbSynthInterval := fun index_and_key =>
    let index := index_and_key.1
    let interval_key_frame := index_and_key.2
    let interval_first_frame := interval_key_frame - left
    let interval_final_frame := min (interval_key_frame + right) final
    let output_path := output index
    { key_frame := interval_key_frame,
      first_frame_is_used := true,
      final_frame_is_used := true,
      first_frame := interval_first_frame,
      final_frame := interval_final_frame,
      output_path := output_path }
  ((pythonRange (first + left) final step).enum).map create_one_interval

/-- A template of the shape `pre{i}post`, as substituted by `str.format`
with the keyword `i`. -/
def format_template (pre post : String) (i : Nat) : String :=
  pre ++ toString i ++ post

/-! ## Documented field ranges -/

/-- A value representable as a signed 32-bit integer, the documented range
of every `int32` field. -/
def int32Range (v : Int) : Prop :=
  -2147483648 ≤ v ∧ v < 2147483648

/-- A string all of whose code points are ASCII (`str.encode('ascii')`
succeeds). -/
def asciiOk (s : String) : Prop :=
  ∀ c ∈ s.data, c.toNat < 128

/-- A string the codec can store: ASCII, with a length that fits the signed
32-bit length prefix. -/
def stringOk (s : String) : Prop :=
  asciiOk s ∧ (s.length : Int) < 2147483648

/-- An interval whose fields lie in the documented ranges. -/
def intervalOk (interval : EbSynthInterval) : Prop :=
  int32Range interval.key_frame ∧
  int32Range interval.first_frame ∧
  int32Range interval.final_frame ∧
  stringOk interval.output_path

/-- A project whose fields lie in the documented ranges: token string of the
nominal fixed length, ASCII path strings, float fields representable as
binary32 bit patterns, `int32` numeric fields. -/
def projectOk (project : EbSynthProject) : Prop :=
  project.program_version.length = MAGIC_PROGRAM_VERSION.length ∧
  asciiOk project.program_version ∧
  project.frames_per_second < 4294967296 ∧
  stringOk project.key_images_path ∧
  stringOk project.video_images_path ∧
  stringOk project.mask_images_path ∧
  project.key_images_weight < 4294967296 ∧
  project.video_images_weight < 4294967296 ∧
  project.mask_images_weight < 4294967296 ∧
  project.mapping < 4294967296 ∧
  project.de_flicker < 4294967296 ∧
  project.diversity < 4294967296 ∧
  ((project.intervals.length : Int) < 2147483648) ∧
  (∀ interval ∈ project.intervals, intervalOk interval) ∧
  int32Range project.synthesis_detail

instance (v : Int) : Decidable (int32Range v) := by
  unfold int32Range
  infer_instance

instance (s : String) : Decidable (asciiOk s) := by
  unfold asciiOk
  infer_instance

instance (s : String) : Decidable (stringOk s) := by
  unfold stringOk
  infer_instance

instance (interval : EbSynthInterval) : Decidable (intervalOk interval) := by
  unfold intervalOk
  infer_instance

instance (project : EbSynthProject) : Decidable (projectOk project) := by
  unfold projectOk
  infer_instance

/-- An interval whose frame numbers are not ordered, exercised to show the
codec stores numeric fields without any range check. -/
def unordered_interval : EbSynthInterval :=
  { key_frame := 10,
    first_frame_is_used := true,
    final_frame_is_used := false,
    first_frame := 20,
    final_frame := 0,
    output_path := "x" }

/-- A project with distinct path strings and one interval, used to pin the
wire layout byte for byte. -/
def order_project : EbSynthProject :=
  { video_images_path := "VID",
    mask_images_path := "MSK",
    key_images_path := "KEY",
    intervals := [{ key_frame := 2, first_frame_is_used := true, final_frame_is_used := true,
                    first_frame := 1, final_frame := 3, output_path := "P1" }] }

/-- A project with one-character paths and one interval, whose 86-byte
encoding exercises every field kind; used for the truncation analysis.
Byte offsets of its encoding: program_version 0-5, video path 6-10,
mask path 11-15, key path 16-20, mask_images_enabled 21, the six floats
22-45, interval count 46-49, interval record 50-68 (its output-path content
is the single byte at offset 68), extra-metadata token 69-72,
synthesis_detail 73-76, use_gpu 77, frames_per_second 78-81,
magic_number 82-85. -/
def truncation_project : EbSynthProject :=
  { video_images_path := "v",
    mask_images_path := "m",
    key_images_path := "k",
    intervals := [{ key_frame := 5, first_frame_is_used := true, final_frame_is_used := false,
                    first_frame := 4, final_frame := 6, output_path := "o" }] }

/-- A complete encoding whose interval-count field holds the value `c`
(intended negative) and whose trailing block carries non-default settings
(`synthesis_detail = 3`, `use_gpu = false`), so a successful decode of the
trailing block is visible in the result. -/
def negative_count_buffer (c : Int) : List Nat :=
  write_constant_string "EBS05" ++
  write_variable_string "v" ++
  write_variable_string "m" ++
  write_variable_string "k" ++
  write_bool false ++
  write_float 1065353216 ++
  write_float 1082130432 ++
  write_float 1065353216 ++
  write_float 1092616192 ++
  write_float 1065353216 ++
  write_float 1163575296 ++
  write_int c ++
  write_constant_string "V02" ++
  write_int 3 ++
  write_bool false ++
  write_float 1106247680 ++
  write_int MAGIC_FINAL_INTEGER

/-- The project `negative_count_buffer` decodes to: its fields with an empty
interval list. -/
def negative_count_project : EbSynthProject :=
  { program_version := "EBS05",
    frames_per_second := 1106247680,
    key_images_path := "k",
    video_images_path := "v",
    mask_images_path := "m",
    mask_images_enabled := false,
    key_images_weight := 1065353216,
    video_images_weight := 1082130432,
    mask_images_weight := 1065353216,
    mapping := 1092616192,
    de_flicker := 1065353216,
    diversity := 1163575296,
    intervals := [],
    synthesis_detail := 3,
    use_gpu := false }

/-! ## Reader/writer correspondence lemmas -/

theorem read_bool_write (value : Bool) (rest : List Nat) :
    read_bool (write_bool value ++ rest) = .ok (value, rest) := by
  cases value <;> rfl

theorem read_int_write (value : Int) (h : int32Range value) (rest : List Nat) :
    read_int (write_int value ++ rest) = .ok (value, rest) := by
  obtain ⟨h1, h2⟩ := h
  have key : int32OfBytes ((value % 4294967296).toNat % 256)
      ((value % 4294967296).toNat / 256 % 256)
      ((value % 4294967296).toNat / 65536 % 256)
      ((value % 4294967296).toNat / 16777216 % 256) = value := by
    unfold int32OfBytes
    split <;> omega
  simp only [write_int, read_int, List.cons_append, List.nil_append, key]

theorem read_float_write (bits : Nat) (h : bits < 4294967296) (rest : List Nat) :
    read_float (write_float bits ++ rest) = .ok (bits, rest) := by
  simp only [write_float, read_float, List.cons_append, List.nil_append]
  have : bits % 256 + 256 * (bits / 256 % 256) + 65536 * (bits / 65536 % 256) +
      16777216 * (bits / 16777216 % 256) = bits := by omega
  rw [this]

theorem asciiDecode_asciiEncode (s : String) (h : asciiOk s) :
    asciiDecode (asciiEncode s) = .ok s := by
  have hall : (asciiEncode s).all (fun b => decide (b < 128)) = true := by
    simp only [asciiEncode, List.all_eq_true, List.mem_map, decide_eq_true_eq]
    rintro b ⟨c, hc, rfl⟩
    exact h c hc
  unfold asciiDecode
  rw [if_pos hall]
  have hmap : (asciiEncode s).map Char.ofNat = s.data := by
    unfold asciiEncode
    rw [List.map_map]
    have hcongr := List.map_congr_left (l := s.data)
      (f := Char.ofNat ∘ Char.toNat) (g := id) (fun c _ => Char.ofNat_toNat c)
    simpa using hcongr
  rw [hmap]

theorem read_constant_string_write (reference s : String)
    (hlen : s.length = reference.length) (h : asciiOk s) (rest : List Nat) :
    read_constant_string reference (write_constant_string s ++ rest) = .ok (s, rest) := by
  unfold read_constant_string write_constant_string
  have hs : (asciiEncode s).length = s.length := List.length_map _ _
  have hl : (asciiEncode s ++ [0]).length = reference.length + 1 := by
    rw [List.length_append, hs, hlen]
    rfl
  rw [List.take_left' hl, List.drop_left' hl, List.dropLast_concat,
    asciiDecode_asciiEncode s h]

theorem read_variable_string_write (s : String) (h : stringOk s) (rest : List Nat) :
    read_variable_string (write_variable_string s ++ rest) = .ok (s, rest) := by
  obtain ⟨hascii, hlen⟩ := h
  unfold read_variable_string write_variable_string
  rw [List.append_assoc,
    read_int_write (s.length : Int) ⟨by omega, hlen⟩ (asciiEncode s ++ rest)]
  have hneg : ¬ ((s.length : Int) < 0) := by omega
  have htoNat : (s.length : Int).toNat = s.length := Int.toNat_natCast s.length
  have hs : (asciiEncode s).length = s.length := List.length_map _ _
  simp only [if_neg hneg, htoNat, List.take_left' hs, List.drop_left' hs,
    asciiDecode_asciiEncode s hascii]

theorem read_interval_write (interval : EbSynthInterval) (h : intervalOk interval)
    (rest : List Nat) :
    read_interval (write_interval interval ++ rest) = .ok (interval, rest) := by
  obtain ⟨h1, h2, h3, h4⟩ := h
  unfold read_interval write_interval
  simp only [List.append_assoc, read_int_write interval.key_frame h1,
    read_bool_write, read_int_write interval.first_frame h2,
    read_int_write interval.final_frame h3,
    read_variable_string_write interval.output_path h4]

theorem read_intervals_list_write (intervals : List EbSynthInterval)
    (h : ∀ interval ∈ intervals, intervalOk interval) (rest : List Nat) :
    read_intervals_list intervals.length
      ((intervals.map write_interval).flatten ++ rest) = .ok (intervals, rest) := by
  induction intervals with
  | nil => rfl
  | cons head tail ih =>
    unfold read_intervals_list
    simp only [List.length_cons, List.map_cons, List.flatten_cons, List.append_assoc,
      read_interval_write head (h head (by simp)),
      ih (fun interval hmem => h interval (by simp [hmem]))]

theorem write_project_split (project : EbSynthProject) :
    write_project project =
      write_project_core project ++
        (write_project_meta project ++ write_int MAGIC_FINAL_INTEGER) := by
  unfold write_project write_project_core write_project_meta
  simp only [List.append_assoc]

theorem read_project_core_write (p : EbSynthProject) (h : projectOk p) (rest : List Nat) :
    read_project (write_project_core p ++ rest) =
      read_project_tail
        { p with synthesis_detail := 2, use_gpu := true, frames_per_second := 1106247680 }
        rest := by
  obtain ⟨h1, h2, h3, h4, h5, h6, h7, h8, h9, h10, h11, h12, h13, h14, h15⟩ := h
  have hcount : (p.intervals.length : Int).toNat = p.intervals.length :=
    Int.toNat_natCast _
  unfold read_project write_project_core
  simp only [List.append_assoc,
    read_constant_string_write MAGIC_PROGRAM_VERSION p.program_version h1 h2,
    read_variable_string_write p.video_images_path h5,
    read_variable_string_write p.mask_images_path h6,
    read_variable_string_write p.key_images_path h4,
    read_bool_write,
    read_float_write p.key_images_weight h7,
    read_float_write p.video_images_weight h8,
    read_float_write p.mask_images_weight h9,
    read_float_write p.mapping h10,
    read_float_write p.de_flicker h11,
    read_float_write p.diversity h12,
    read_int_write (p.intervals.length : Int) ⟨by omega, h13⟩,
    hcount,
    read_intervals_list_write p.intervals h14]

theorem read_project_tail_write (q p : EbSynthProject)
    (hdetail : int32Range p.synthesis_detail)
    (hfps : p.frames_per_second < 4294967296) (rest : List Nat) :
    read_project_tail q (write_project_meta p ++ rest) =
      .ok ({ q with
              synthesis_detail := p.synthesis_detail,
              use_gpu := p.use_gpu,
              frames_per_second := p.frames_per_second }, rest) := by
  unfold read_project_tail write_project_meta
  simp only [List.append_assoc,
    read_constant_string_write MAGIC_EXTRA_METADATA MAGIC_EXTRA_METADATA rfl (by decide),
    read_int_write p.synthesis_detail hdetail,
    read_bool_write,
    read_float_write p.frames_per_second hfps]
  rw [if_neg (by decide)]

theorem pythonRange_lt_of_mem (a b s x : Int) (hs : 0 < s)
    (hx : x ∈ pythonRange a b s) : x < b := by
  unfold pythonRange at hx
  rw [List.mem_map] at hx
  obtain ⟨k, hk, rfl⟩ := hx
  rw [List.mem_range] at hk
  unfold pythonRangeLength at hk
  rw [if_pos hs] at hk
  have hsn : 0 < s.toNat := by omega
  have hks : (k + 1) * s.toNat ≤ (b - a + s - 1).toNat :=
    (Nat.le_div_iff_mul_le hsn).mp (Nat.succ_le_of_lt hk)
  rcases le_or_lt 0 (b - a + s - 1) with hc | hc
  · have h1 : (((k + 1) * s.toNat : Nat) : Int) ≤ ((b - a + s - 1).toNat : Int) := by
      exact_mod_cast hks
    rw [Int.toNat_of_nonneg hc] at h1
    have hcast : (((k + 1) * s.toNat : Nat) : Int) = ((k : Int) + 1) * s := by
      push_cast [Int.toNat_of_nonneg hs.le]
      ring
    rw [hcast] at h1
    nlinarith
  · exfalso
    have hzero : (b - a + s - 1).toNat = 0 := Int.toNat_of_nonpos hc.le
    rw [hzero] at hks
    have hle : s.toNat ≤ (k + 1) * s.toNat := Nat.le_mul_of_pos_left _ k.succ_pos
    exact absurd (le_trans hle hks) (by omega)

/-! ## Claim theorems -/

/-- C1: for every Project value constructible from the documented field
ranges (token string of its nominal fixed length, ASCII path strings, float
fields representable as binary32), decoding the byte sequence produced by
encoding it yields the same Project field for field, including the order of
the intervals list and the unvalidated token string; only the trailing
sentinel bytes are left unread. -/
theorem c1_decode_encode_round_trip (p : EbSynthProject) (h : projectOk p) :
    read_project (write_project p) = .ok (p, write_int MAGIC_FINAL_INTEGER) := by
  obtain ⟨h1, h2, h3, h4, h5, h6, h7, h8, h9, h10, h11, h12, h13, h14, h15⟩ := h
  rw [write_project_split,
    read_project_core_write p ⟨h1, h2, h3, h4, h5, h6, h7, h8, h9, h10, h11, h12, h13, h14, h15⟩,
    read_project_tail_write _ p h15 h3]

/-- Witness for C1 at the default project. -/
theorem c1_round_trip_witness :
    read_project (write_project defaultProject) =
      .ok (defaultProject, write_int MAGIC_FINAL_INTEGER) :=
  c1_decode_encode_round_trip defaultProject (by decide)

/-- C6: decoding a fixed-length token whose bytes differ from the nominal
reference text but match its length succeeds, consumes exactly
reference-length + 1 bytes, and yields the bytes present in the buffer; no
comparison against the reference is made (the statement holds for every
content string of the right length). -/
theorem c6_fixed_token_pass_through (reference s : String) (rest : List Nat)
    (hlen : s.length = reference.length) (h : asciiOk s) :
    read_constant_string reference (write_constant_string s ++ rest) = .ok (s, rest) :=
  read_constant_string_write reference s hlen h rest

/-- Witness for C6: the program-version slot filled with `XYZ99` instead of
`EBS05` decodes to `XYZ99`, leaving exactly the trailing bytes. -/
theorem c6_pass_through_witness :
    read_constant_string MAGIC_PROGRAM_VERSION
      (write_constant_string "XYZ99" ++ [7, 7]) = .ok ("XYZ99", [7, 7]) :=
  c6_fixed_token_pass_through MAGIC_PROGRAM_VERSION "XYZ99" [7, 7] (by decide) (by decide)

/-- C9: encoding any Project ends with the fixed sentinel int32 `704` as its
final field, and decoding never reads or verifies that position: whatever
bytes stand where the sentinel would be (including none at all), the decode
result is the same Project, with exactly those bytes left unread. -/
theorem c9_trailing_sentinel (p : EbSynthProject) (h : projectOk p) :
    write_project p =
        write_project_core p ++ (write_project_meta p ++ write_int MAGIC_FINAL_INTEGER) ∧
      (∀ extra : List Nat,
        read_project (write_project_core p ++ (write_project_meta p ++ extra)) =
          .ok (p, extra)) := by
  obtain ⟨h1, h2, h3, h4, h5, h6, h7, h8, h9, h10, h11, h12, h13, h14, h15⟩ := h
  refine ⟨write_project_split p, fun extra => ?_⟩
  rw [read_project_core_write p
      ⟨h1, h2, h3, h4, h5, h6, h7, h8, h9, h10, h11, h12, h13, h14, h15⟩,
    read_project_tail_write _ p h15 h3]

/-- Witness for C9 at the default project, with the sentinel bytes replaced
by nothing at all. -/
theorem c9_trailing_sentinel_witness :
    write_project defaultProject =
        write_project_core defaultProject ++
          (write_project_meta defaultProject ++ write_int MAGIC_FINAL_INTEGER) ∧
      read_project (write_project_core defaultProject ++
          (write_project_meta defaultProject ++ [])) = .ok (defaultProject, []) :=
  ⟨(c9_trailing_sentinel defaultProject (by decide)).1,
   (c9_trailing_sentinel defaultProject (by decide)).2 []⟩

/-- C10: decoding a buffer that ends exactly after the interval list (no
extra-metadata token bytes present) succeeds: the lenient fixed-token read
yields the empty string at end of data, the trailing branch is skipped, and
the result carries the dataclass defaults `synthesis_detail = 2`,
`use_gpu = true` and `frames_per_second = 30.0` (bit pattern `1106247680`). -/
theorem c10_missing_tail_defaults (p : EbSynthProject) (h : projectOk p) :
    read_project (write_project_core p) =
      .ok ({ p with
              synthesis_detail := 2,
              use_gpu := true,
              frames_per_second := 1106247680 }, []) := by
  have hsplit := read_project_core_write p h []
  rw [show write_project_core p ++ [] = write_project_core p from by simp] at hsplit
  rw [hsplit]
  rfl

/-- Witness for C10 at a project with non-default trailing settings, showing
they are replaced by the defaults when the trailing block is absent. -/
theorem c10_missing_tail_witness :
    read_project (write_project_core negative_count_project) =
      .ok ({ negative_count_project with
              synthesis_detail := 2,
              use_gpu := true,
              frames_per_second := 1106247680 }, []) :=
  c10_missing_tail_defaults negative_count_project (by decide)

/-- C3 (amended): decoding a buffer whose interval-count field holds any
negative 32-bit value does not fail at all: Python's `range` over a negative
count is empty, so zero interval records are read and decoding continues
with the bytes that follow, here the trailing-metadata block. -/
theorem c3_negative_count_reads_zero (c : Int)
    (h1 : -2147483648 ≤ c) (h2 : c < 0) :
    read_project (negative_count_buffer c) =
      .ok (negative_count_project, write_int MAGIC_FINAL_INTEGER) := by
  have hzero : c.toNat = 0 := Int.toNat_of_nonpos h2.le
  unfold read_project negative_count_buffer
  simp only [List.append_assoc,
    read_constant_string_write MAGIC_PROGRAM_VERSION "EBS05" (by decide) (by decide),
    read_variable_string_write "v" (by decide),
    read_variable_string_write "m" (by decide),
    read_variable_string_write "k" (by decide),
    read_bool_write,
    read_float_write 1065353216 (by decide),
    read_float_write 1082130432 (by decide),
    read_float_write 1092616192 (by decide),
    read_float_write 1163575296 (by decide),
    read_int_write c ⟨h1, by omega⟩,
    hzero,
    read_intervals_list]
  unfold read_project_tail
  simp only [
    read_constant_string_write MAGIC_EXTRA_METADATA "V02" (by decide) (by decide),
    read_int_write 3 (by decide),
    read_bool_write,
    read_float_write 1106247680 (by decide)]
  rw [if_neg (by decide)]
  rfl

/-- Counterexample for C3 as stated: a buffer encoding an interval count of
`-1` does not fail with `InvalidEncoding`; it decodes successfully to a
project with no intervals. -/
theorem c3_negative_count_counterexample :
    read_project (negative_count_buffer (-1)) =
      .ok (negative_count_project, write_int MAGIC_FINAL_INTEGER) := by decide

/-- Witness for C3 at the count `-2`. -/
theorem c3_negative_count_witness :
    read_project (negative_count_buffer (-2)) =
      .ok (negative_count_project, write_int MAGIC_FINAL_INTEGER) :=
  c3_negative_count_reads_zero (-2) (by decide) (by decide)

/-- C4 (amended): over `truncation_project`'s 86-byte encoding the outcome of
decoding each truncated prefix is characterised exactly.  Decoding fails, and
fails with `UnexpectedEndOfData`, precisely when the truncation length is
below 68 — before the content bytes of the final variable-length string of
the interval region, covering every field boundary and every
mid-multibyte-field cut in that region, such as a cut holding only 2 of the
4 length-prefix bytes of a variable string — or between 71 and 81, where at
least two bytes of the trailing fixed token survive (a truthy token string,
so the trailing branch is taken) but the block it announces is incomplete.
At the remaining lengths decoding succeeds with a (possibly partial)
Project: at 68-70 the lenient token read yields a falsy (empty) string at
end of data, and at 82-86 only the never-read sentinel bytes are missing or
incomplete.  No truncation ever produces an `InvalidEncoding` error. -/
theorem c4_truncation_fails (n : Nat) (h : n ≤ 86) :
    ((read_project ((write_project truncation_project).take n) =
        .error .unexpectedEndOfData) ↔ (n < 68 ∨ (71 ≤ n ∧ n ≤ 81))) ∧
      read_project ((write_project truncation_project).take n) ≠
        .error .invalidEncoding := by
  revert n
  decide

/-- Witness for C4 at length 8: the buffer holds only 2 of the 4 bytes of
the first variable string's length prefix, and decoding fails with
`UnexpectedEndOfData`. -/
theorem c4_truncation_witness :
    read_project ((write_project truncation_project).take 8) =
      .error .unexpectedEndOfData :=
  (c4_truncation_fails 8 (by decide)).1.mpr (Or.inl (by decide))

/-- Counterexample for C4 as stated: the same encoding truncated at a field
boundary — dropping exactly the four trailing sentinel bytes — decodes
without any error, returning the full project. -/
theorem c4_truncation_counterexample :
    read_project ((write_project truncation_project).take 82) =
      .ok (truncation_project, []) := by decide

/-- C7: the wire layout of encode and decode, pinned byte for byte on a
project with distinct path strings and one interval: program_version token,
then the three path fields in video, mask, key order (not key/video/mask),
mask_images_enabled, the three weights, mapping, de_flicker, diversity, the
interval count and interval records between the diversity scalar and the
project_version token, then synthesis_detail, use_gpu, frames_per_second
and the final sentinel; decoding those bytes restores the project, leaving
the sentinel bytes. -/
theorem c7_wire_field_order :
    write_project order_project =
        ([69, 66, 83, 48, 53, 0] ++
         [3, 0, 0, 0, 86, 73, 68] ++
         [3, 0, 0, 0, 77, 83, 75] ++
         [3, 0, 0, 0, 75, 69, 89] ++
         [0] ++
         [0, 0, 128, 63] ++
         [0, 0, 128, 64] ++
         [0, 0, 128, 63] ++
         [0, 0, 32, 65] ++
         [0, 0, 128, 63] ++
         [0, 192, 90, 69] ++
         [1, 0, 0, 0] ++
         [2, 0, 0, 0, 1, 1, 1, 0, 0, 0, 3, 0, 0, 0, 2, 0, 0, 0, 80, 49] ++
         [86, 48, 50, 0] ++
         [2, 0, 0, 0] ++
         [1] ++
         [0, 0, 240, 65] ++
         [192, 2, 0, 0]) ∧
      read_project
          ([69, 66, 83, 48, 53, 0] ++
           [3, 0, 0, 0, 86, 73, 68] ++
           [3, 0, 0, 0, 77, 83, 75] ++
           [3, 0, 0, 0, 75, 69, 89] ++
           [0] ++
           [0, 0, 128, 63] ++
           [0, 0, 128, 64] ++
           [0, 0, 128, 63] ++
           [0, 0, 32, 65] ++
           [0, 0, 128, 63] ++
           [0, 192, 90, 69] ++
           [1, 0, 0, 0] ++
           [2, 0, 0, 0, 1, 1, 1, 0, 0, 0, 3, 0, 0, 0, 2, 0, 0, 0, 80, 49] ++
           [86, 48, 50, 0] ++
           [2, 0, 0, 0] ++
           [1] ++
           [0, 0, 240, 65] ++
           [192, 2, 0, 0]) = .ok (order_project, [192, 2, 0, 0]) := by
  constructor
  · decide
  · decide

/-- C2 (amended): the generator takes extent parameters `left` and `right`
in addition to `first`, `final`, `step`: its keyframes are
`range(first + left, final, step)` (half-open, `final` excluded) and each
produced interval spans `[key - left, min(key + right, final)]` with both
flags set; the template index starts at `0`.  With `left = right = step`,
`create_intervals 0 6 2` yields the two claimed frame triples but with
0-based output indices, and `create_intervals 0 1 1` yields zero
intervals. -/
theorem c2_generator_windows :
    create_intervals 0 6 2 2 2 (format_template "out" ".png") =
        [{ key_frame := 2, first_frame_is_used := true, final_frame_is_used := true,
           first_frame := 0, final_frame := 4, output_path := "out0.png" },
         { key_frame := 4, first_frame_is_used := true, final_frame_is_used := true,
           first_frame := 2, final_frame := 6, output_path := "out1.png" }] ∧
      create_intervals 0 1 1 1 1 (format_template "out" ".png") = [] := by
  constructor
  · decide
  · decide

/-- Counterexample for C2 as stated: the windowed generation over
`first = 0`, `final = 6`, `step = 2` with template `out{i}.png` does not
produce the claimed paths `out1.png` and `out2.png` — indices are 0-based,
so the produced paths are `out0.png` and `out1.png`. -/
theorem c2_window_counterexample :
    create_intervals 0 6 2 2 2 (format_template "out" ".png") ≠
      [{ key_frame := 2, first_frame_is_used := true, final_frame_is_used := true,
         first_frame := 0, final_frame := 4, output_path := "out1.png" },
       { key_frame := 4, first_frame_is_used := true, final_frame_is_used := true,
         first_frame := 2, final_frame := 6, output_path := "out2.png" }] := by decide

/-- C5 (amended): template indices are 0-based and contiguous regardless of
the value of `first`: the interval produced at position `j` (from `0`) has
its placeholder substituted with `j`, for every argument combination. -/
theorem c5_indices_zero_based (first final step left right : Int)
    (output : Nat → String) (j : Nat)
    (h : j < (create_intervals first final step left right output).length) :
    ((create_intervals first final step left right output)[j]?).map
      (fun interval => interval.output_path) = some (output j) := by
  have hj : j < (pythonRange (first + left) final step).length := by
    simpa [create_intervals] using h
  unfold create_intervals
  rw [List.getElem?_map, List.getElem?_enum, List.getElem?_eq_getElem hj]
  rfl

/-- Witness for C5 with `first = 100`: the first produced interval's path
uses index 0. -/
theorem c5_indexing_witness :
    ((create_intervals 100 110 2 2 2 (format_template "out" ".png"))[0]?).map
      (fun interval => interval.output_path) =
      some (format_template "out" ".png" 0) :=
  c5_indices_zero_based 100 110 2 2 2 (format_template "out" ".png") 0 (by decide)

/-- Counterexample for C5 as stated: with `first = 100` the first produced
interval's placeholder is replaced by `0`, not `1` — its path is
`out0.png`, not `out1.png`. -/
theorem c5_indexing_counterexample :
    ((create_intervals 100 110 2 2 2 (format_template "out" ".png"))[0]?).map
        (fun interval => interval.output_path) ≠ some "out1.png" ∧
      ((create_intervals 100 110 2 2 2 (format_template "out" ".png"))[0]?).map
        (fun interval => interval.output_path) = some "out0.png" := by
  constructor
  · decide
  · decide

/-- C8 (amended): every interval the generator produces from nonnegative
`left` and `right` extents and a positive `step` satisfies
`first_frame ≤ key_frame ≤ final_frame` by construction; and the codec
itself applies no range check: it stores and retrieves an interval whose
frame numbers are out of order unchanged. -/
theorem c8_generator_ordering :
    (∀ (first final step left right : Int) (output : Nat → String)
        (interval : EbSynthInterval),
        0 ≤ left → 0 ≤ right → 0 < step →
        interval ∈ create_intervals first final step left right output →
        interval.first_frame ≤ interval.key_frame ∧
          interval.key_frame ≤ interval.final_frame) ∧
      read_interval (write_interval unordered_interval) =
        .ok (unordered_interval, []) := by
  constructor
  · intro first final step left right output interval hl hr hs hmem
    unfold create_intervals at hmem
    rw [List.mem_map] at hmem
    obtain ⟨⟨j, key⟩, hmem, rfl⟩ := hmem
    rw [List.enum_eq_zip_range] at hmem
    have hkey : key ∈ pythonRange (first + left) final step :=
      (List.of_mem_zip hmem).2
    have hlt : key < final := pythonRange_lt_of_mem _ _ _ _ hs hkey
    refine ⟨?_, ?_⟩
    · show key - left ≤ key
      omega
    · show key ≤ min (key + right) final
      omega
  · decide

/-- Witness for C8 at `create_intervals 0 10 2 2 2`, whose first produced
interval is `(0, 2, 4)`. -/
theorem c8_ordering_witness :
    ({ key_frame := 2, first_frame_is_used := true, final_frame_is_used := true,
       first_frame := 0, final_frame := 4,
       output_path := "out0.png" } : EbSynthInterval).first_frame ≤
        ({ key_frame := 2, first_frame_is_used := true, final_frame_is_used := true,
           first_frame := 0, final_frame := 4,
           output_path := "out0.png" } : EbSynthInterval).key_frame ∧
      ({ key_frame := 2, first_frame_is_used := true, final_frame_is_used := true,
         first_frame := 0, final_frame := 4,
         output_path := "out0.png" } : EbSynthInterval).key_frame ≤
        ({ key_frame := 2, first_frame_is_used := true, final_frame_is_used := true,
           first_frame := 0, final_frame := 4,
           output_path := "out0.png" } : EbSynthInterval).final_frame :=
  c8_generator_ordering.1 0 10 2 2 2 (format_template "out" ".png")
    { key_frame := 2, first_frame_is_used := true, final_frame_is_used := true,
      first_frame := 0, final_frame := 4, output_path := "out0.png" }
    (by decide) (by decide) (by decide) (by decide)

/-- Counterexample for C8 as stated: with the negative left extent `-1`
(allowed by the command line), the generator produces intervals whose
`first_frame` exceeds their `key_frame`. -/
theorem c8_ordering_counterexample :
    ¬ (∀ interval ∈ create_intervals 0 3 1 (-1) 1 (format_template "out" ".png"),
        interval.first_frame ≤ interval.key_frame ∧
          interval.key_frame ≤ interval.final_frame) := by decide
